import Mathlib

/-!
Verification of the octofhir fhir-model type-resolution core.

This file gives a shallow embedding in Lean 4 of the data model and the
operations of the repository's type-resolution layer (src/reflection.rs,
src/choice_types.rs, src/navigation.rs, src/fhirpath_types.rs,
src/type_system.rs) and proves or refutes the stated behavioural claims.

Modelling conventions:
* Rust `f32`/`f64` quantities (costs, scores, frequencies) are embedded as
  exact rationals `ℚ`; the programs only combine the literal constants by
  `+`, `*`, `min`, `max` and comparisons, which the rational model mirrors.
* Rust `HashMap<String, String>` is embedded as an association list where
  `insert` prepends the new binding and `get` returns the most recent
  binding for a key; this is observationally the insert-overwrite
  behaviour of the map that the code relies on.
* Rust `Vec<T>` is `List T`; `usize`/`u32` counters are `Nat`.
* Fallible lookups (`Option<T>`) are `Option T`.
-/

namespace FhirModel

/-- Rust `str::contains` (substring test) on the underlying character list. -/
def listContainsSub (s pat : List Char) : Bool :=
  match s with
  | [] => pat.isEmpty
  | _ :: rest => pat.isPrefixOf s || listContainsSub rest pat

/-- Rust `str::contains`: `strContains s pat` holds when `pat` occurs as a
contiguous substring of `s`. -/
def strContains (s pat : String) : Bool :=
  listContainsSub s.data pat.data

/- `TypeReflectionInfo` from src/reflection.rs, together with the element
records it contains.  The Rust field `namespace` is called `ns` here because
`namespace` is a Lean keyword. -/
mutual

inductive TypeReflectionInfo : Type where
  | SimpleType (ns name : String) (base_type : Option String) : TypeReflectionInfo
  | ClassInfo (ns name : String) (base_type : Option String)
      (elements : List ElementInfo) : TypeReflectionInfo
  | ListType (element_type : TypeReflectionInfo) : TypeReflectionInfo
  | TupleType (elements : List TupleElementInfo) : TypeReflectionInfo

inductive ElementInfo : Type where
  | mk (name : String) (type_info : TypeReflectionInfo) (min_cardinality : Nat)
      (max_cardinality : Option Nat) (is_modifier is_summary is_one_based : Bool)
      (documentation : Option String) : ElementInfo

inductive TupleElementInfo : Type where
  | mk (name : String) (type_info : TypeReflectionInfo) (is_one_based : Bool) :
      TupleElementInfo

end

/- Structural equality on `TypeReflectionInfo`, as derived by Rust
`#[derive(PartialEq)]` on the enum and its element structs. -/
mutual

def TypeReflectionInfo.beq : TypeReflectionInfo → TypeReflectionInfo → Bool
  | .SimpleType ns1 n1 b1, .SimpleType ns2 n2 b2 =>
      ns1 == ns2 && n1 == n2 && b1 == b2
  | .ClassInfo ns1 n1 b1 es1, .ClassInfo ns2 n2 b2 es2 =>
      ns1 == ns2 && n1 == n2 && b1 == b2 && ElementInfo.listBeq es1 es2
  | .ListType t1, .ListType t2 => TypeReflectionInfo.beq t1 t2
  | .TupleType es1, .TupleType es2 => TupleElementInfo.listBeq es1 es2
  | _, _ => false

def ElementInfo.beq : ElementInfo → ElementInfo → Bool
  | .mk n1 t1 mi1 ma1 mo1 su1 ob1 d1, .mk n2 t2 mi2 ma2 mo2 su2 ob2 d2 =>
      n1 == n2 && TypeReflectionInfo.beq t1 t2 && mi1 == mi2 && ma1 == ma2 &&
      mo1 == mo2 && su1 == su2 && ob1 == ob2 && d1 == d2

def ElementInfo.listBeq : List ElementInfo → List ElementInfo → Bool
  | [], [] => true
  | e1 :: r1, e2 :: r2 => ElementInfo.beq e1 e2 && ElementInfo.listBeq r1 r2
  | _, _ => false

def TupleElementInfo.beq : TupleElementInfo → TupleElementInfo → Bool
  | .mk n1 t1 b1, .mk n2 t2 b2 =>
      n1 == n2 && TypeReflectionInfo.beq t1 t2 && b1 == b2

def TupleElementInfo.listBeq : List TupleElementInfo → List TupleElementInfo → Bool
  | [], [] => true
  | e1 :: r1, e2 :: r2 => TupleElementInfo.beq e1 e2 && TupleElementInfo.listBeq r1 r2
  | _, _ => false

end

/-- `TypeReflectionInfo::name` (src/reflection.rs). -/
def TypeReflectionInfo.name : TypeReflectionInfo → String
  | .SimpleType _ n _ => n
  | .ClassInfo _ n _ _ => n
  | .ListType _ => "List"
  | .TupleType _ => "Tuple"

/-- `TypeReflectionInfo::namespace` (src/reflection.rs); renamed because
`namespace` is a Lean keyword. -/
def TypeReflectionInfo.nspace : TypeReflectionInfo → Option String
  | .SimpleType ns _ _ => some ns
  | .ClassInfo ns _ _ _ => some ns
  | .ListType _ => none
  | .TupleType _ => none

/-- `TypeReflectionInfo::base_type` (src/reflection.rs). -/
def TypeReflectionInfo.base_type : TypeReflectionInfo → Option String
  | .SimpleType _ _ b => b
  | .ClassInfo _ _ b _ => b
  | .ListType _ => none
  | .TupleType _ => none

/-- `TypeReflectionInfo::is_primitive` (src/reflection.rs). -/
def TypeReflectionInfo.is_primitive : TypeReflectionInfo → Bool
  | .SimpleType ns _ _ => ns == "System"
  | _ => false

/-- `TypeReflectionInfo::is_fhir_type` (src/reflection.rs). -/
def TypeReflectionInfo.is_fhir_type : TypeReflectionInfo → Bool
  | .SimpleType ns _ _ => ns == "FHIR"
  | .ClassInfo ns _ _ _ => ns == "FHIR"
  | _ => false

/-- Whether the descriptor is the `ClassInfo` variant (statement vocabulary
for the claims; the Rust enum exposes this by pattern matching). -/
def TypeReflectionInfo.isClassInfo : TypeReflectionInfo → Bool
  | .ClassInfo _ _ _ _ => true
  | _ => false

/- `TypeReflectionInfo::qualified_name` (src/reflection.rs). -/
mutual

def TypeReflectionInfo.qualified_name : TypeReflectionInfo → String
  | .SimpleType ns n _ => if ns.isEmpty then n else ns ++ "." ++ n
  | .ClassInfo ns n _ _ => if ns.isEmpty then n else ns ++ "." ++ n
  | .ListType t => "List<" ++ TypeReflectionInfo.qualified_name t ++ ">"
  | .TupleType es =>
      "\x7b " ++ String.intercalate ", " (TupleElementInfo.nameStrings es) ++ " \x7d"

def TupleElementInfo.nameStrings : List TupleElementInfo → List String
  | [] => []
  | .mk n t _ :: rest =>
      (n ++ ": " ++ TypeReflectionInfo.qualified_name t) :: TupleElementInfo.nameStrings rest

end

/-- `TypeReflectionInfo::simple_type` constructor (src/reflection.rs). -/
def TypeReflectionInfo.simple_type (ns name : String) : TypeReflectionInfo :=
  .SimpleType ns name none

/-- `TypeReflectionInfo::is_subtype_of` (src/reflection.rs): true when the
name matches or the declared base type matches (single hop only). -/
def TypeReflectionInfo.is_subtype_of (t : TypeReflectionInfo) (parent_type : String) : Bool :=
  if t.name == parent_type then true
  else
    match t.base_type with
    | some base => base == parent_type
    | none => false

/-- `TypeReflectionInfo::common_supertype` (src/reflection.rs). -/
def TypeReflectionInfo.common_supertype (t other : TypeReflectionInfo) :
    Option TypeReflectionInfo :=
  if TypeReflectionInfo.beq t other then some t
  else if t.is_subtype_of other.name then some other
  else if other.is_subtype_of t.name then some t
  else if t.is_primitive && other.is_primitive then
    some (TypeReflectionInfo.simple_type "System" "String")
  else if t.is_fhir_type && other.is_fhir_type then
    some (TypeReflectionInfo.simple_type "FHIR" "Element")
  else none

/-- `ConversionType` from src/type_system.rs. -/
inductive ConversionType : Type where
  | Implicit
  | Explicit
  | Function
  | Forbidden
  | Conditional
deriving DecidableEq

/-- `ValidationRule` from src/type_system.rs. -/
structure ValidationRule : Type where
  rule_id : String
  description : String
  validation_expression : Option String
  error_message : String
deriving DecidableEq

/-- `ConversionInfo` from src/type_system.rs (`performance_cost` is the
`f32` field, embedded as a rational). -/
structure ConversionInfo : Type where
  conversion_type : ConversionType
  conversion_function : Option String
  data_loss_possible : Bool
  validation_rules : List ValidationRule
  performance_cost : ℚ

/-- `TypeReflectionInfo::get_compatible_types` (src/reflection.rs). -/
def TypeReflectionInfo.get_compatible_types (t : TypeReflectionInfo) : List String :=
  let compatible := [t.qualified_name]
  let compatible :=
    match t.base_type with
    | some base => compatible ++ [base]
    | none => compatible
  let compatible :=
    if t.is_primitive then
      match t.name with
      | "Integer" => compatible ++ ["System.Decimal", "System.String"]
      | "Decimal" => compatible ++ ["System.String"]
      | "Boolean" => compatible ++ ["System.String"]
      | "Date" => compatible ++ ["System.DateTime", "System.String"]
      | "DateTime" => compatible ++ ["System.String"]
      | "Time" => compatible ++ ["System.String"]
      | _ => compatible
    else compatible
  if compatible.contains "System.String" then compatible
  else compatible ++ ["System.String"]

/-- `TypeReflectionInfo::is_system_type_promotion` (src/reflection.rs). -/
def TypeReflectionInfo.is_system_type_promotion (t : TypeReflectionInfo)
    (target_type : String) : Bool :=
  if !t.is_primitive then false
  else
    match t.name, target_type with
    | "Integer", "System.Decimal" => true
    | "Date", "System.DateTime" => true
    | _, _ => false

/-- `TypeReflectionInfo::get_conversion_function` (src/reflection.rs). -/
def TypeReflectionInfo.get_conversion_function (t : TypeReflectionInfo)
    (target_type : String) : Option String :=
  if t.is_primitive && target_type == "System.String" then some "toString"
  else if strContains target_type "Integer" then some "toInteger"
  else if strContains target_type "Decimal" then some "toDecimal"
  else if strContains target_type "Boolean" then some "toBoolean"
  else none

/-- `TypeReflectionInfo::conversion_may_lose_data` (src/reflection.rs). -/
def TypeReflectionInfo.conversion_may_lose_data (t : TypeReflectionInfo)
    (target_type : String) : Bool :=
  match t.name, target_type with
  | "Decimal", "System.Integer" => true
  | "DateTime", "System.Date" => true
  | "String", tt => tt != "System.String"
  | _, _ => false

/-- `TypeReflectionInfo::get_conversion_validation_rules` (src/reflection.rs). -/
def TypeReflectionInfo.get_conversion_validation_rules (t : TypeReflectionInfo)
    (target_type : String) : List ValidationRule :=
  if strContains target_type "Integer" && t.name == "String" then
    [{ rule_id := "string-to-integer"
       description := "String must contain valid integer"
       validation_expression := some "matches(\x27^-?\\d+$\x27)"
       error_message := "Invalid integer format" }]
  else []

/-- `TypeReflectionInfo::get_conversion_cost` (src/reflection.rs); the Rust
match arms are ordered, so the embedding uses an ordered if-chain. -/
def TypeReflectionInfo.get_conversion_cost (t : TypeReflectionInfo)
    (target_type : String) : ℚ :=
  if t.name == target_type then 0
  else if t.name == "Integer" && target_type == "System.Decimal" then 1/10
  else if target_type == "System.String" then 2/10
  else if t.name == "String" then 5/10
  else 3/10

/-- `TypeReflectionInfo::can_convert_to` (src/reflection.rs). -/
def TypeReflectionInfo.can_convert_to (t : TypeReflectionInfo)
    (target_type : String) : ConversionInfo :=
  let compatible_types := t.get_compatible_types
  if compatible_types.contains target_type then
    let conversion_type :=
      if t.qualified_name == target_type then ConversionType.Implicit
      else if t.is_primitive && target_type == "System.String" then ConversionType.Function
      else if t.is_system_type_promotion target_type then ConversionType.Implicit
      else ConversionType.Explicit
    { conversion_type := conversion_type
      conversion_function := t.get_conversion_function target_type
      data_loss_possible := t.conversion_may_lose_data target_type
      validation_rules := t.get_conversion_validation_rules target_type
      performance_cost := t.get_conversion_cost target_type }
  else
    { conversion_type := ConversionType.Forbidden
      conversion_function := none
      data_loss_possible := false
      validation_rules := []
      performance_cost := 0 }

/-- `ConstraintSeverity` from src/type_system.rs. -/
inductive ConstraintSeverity : Type where
  | Error
  | Warning
  | Information
deriving DecidableEq

/-- `TypeConstraint` from src/type_system.rs. -/
structure TypeConstraint : Type where
  constraint_id : String
  applicable_types : List String
  constraint_expression : String
  severity : ConstraintSeverity
deriving DecidableEq

/-- `InferenceHintType` from src/type_system.rs. -/
inductive InferenceHintType : Type where
  | Statistical
  | Contextual
  | Constraint
  | UserProvided
  | Default
deriving DecidableEq

/-- `InferenceHint` from src/type_system.rs (`confidence` is `f64`,
embedded as a rational). -/
structure InferenceHint : Type where
  hint_type : InferenceHintType
  suggested_type : String
  confidence : ℚ
  reasoning : String

/-- `ResolutionStrategy` from src/type_system.rs. -/
inductive ResolutionStrategy : Type where
  | FirstMatch
  | MostSpecific
  | MostCommon
  | ContextInferred
  | ExplicitOnly
  | ConfidenceBased
deriving DecidableEq

/-- `PolymorphicContext` from src/type_system.rs.  The Rust `metadata`
field is `HashMap<String, serde_json::Value>`; the resolution code never
reads it, and it is embedded as an association list of keys to the
serialized value text. -/
structure PolymorphicContext : Type where
  current_path : String
  base_type : String
  available_types : List String
  constraints : List TypeConstraint
  inference_hints : List InferenceHint
  resolution_strategy : ResolutionStrategy
  metadata : List (String × String)

/-- `TypeReflectionInfo::find_most_specific_type` (src/reflection.rs);
`&self` is unused by the Rust body. -/
def TypeReflectionInfo.find_most_specific_type (_t : TypeReflectionInfo)
    (available_types : List String) : Option String :=
  match available_types.find?
      (fun tn => !(strContains tn "Element") && !(strContains tn "Resource")) with
  | some tn => some tn
  | none => available_types.head?

/-- `TypeReflectionInfo::find_most_common_type` (src/reflection.rs). -/
def TypeReflectionInfo.find_most_common_type (_t : TypeReflectionInfo)
    (context : PolymorphicContext) : Option String :=
  (context.inference_hints.find? (fun hint =>
      hint.hint_type == InferenceHintType.Statistical &&
      context.available_types.contains hint.suggested_type)).map
    (fun hint => hint.suggested_type)

/-- `TypeReflectionInfo::infer_from_context` (src/reflection.rs). -/
def TypeReflectionInfo.infer_from_context (_t : TypeReflectionInfo)
    (context : PolymorphicContext) : Option String :=
  (context.inference_hints.find? (fun hint =>
      hint.hint_type == InferenceHintType.Contextual &&
      context.available_types.contains hint.suggested_type)).map
    (fun hint => hint.suggested_type)

/-- `TypeReflectionInfo::find_highest_confidence_type` (src/reflection.rs):
a fold tracking the best candidate and its strictly highest confidence. -/
def TypeReflectionInfo.find_highest_confidence_type (_t : TypeReflectionInfo)
    (context : PolymorphicContext) : Option String :=
  (context.inference_hints.foldl
    (fun (acc : Option String × ℚ) hint =>
      if context.available_types.contains hint.suggested_type &&
          decide (acc.2 < hint.confidence) then
        (some hint.suggested_type, hint.confidence)
      else acc)
    (none, 0)).1

/-- `TypeReflectionInfo::resolve_choice_type` (src/reflection.rs).  The Rust
loop over `context.available_types` that returns the first available type
contained in `get_compatible_types` is `List.find?` over
`available_types`. -/
def TypeReflectionInfo.resolve_choice_type (t : TypeReflectionInfo)
    (context : PolymorphicContext) : Option String :=
  let type_name := t.qualified_name
  if context.available_types.contains type_name then some type_name
  else
    let compatible := t.get_compatible_types
    match context.available_types.find? (fun available => compatible.contains available) with
    | some available => some available
    | none =>
      match context.resolution_strategy with
      | .FirstMatch => context.available_types.head?
      | .MostSpecific => t.find_most_specific_type context.available_types
      | .MostCommon => t.find_most_common_type context
      | .ContextInferred => t.infer_from_context context
      | .ExplicitOnly => none
      | .ConfidenceBased => t.find_highest_confidence_type context

/-- `Cardinality` from src/type_system.rs. -/
structure Cardinality : Type where
  min : Nat
  max : Option Nat
deriving DecidableEq

/-- `SegmentType` from src/navigation.rs. -/
inductive SegmentType : Type where
  | Property
  | ChoiceExpansion (base_property expanded_type : String)
  | Collection (index : Option Nat)
  | Function (function_name : String) (parameters : List String)
  | TypeCast (target_type : String)
  | TypeFilter (filter_type : String)
  | WhereClause (condition : String)
deriving DecidableEq

/-- Whether a segment type is the `ChoiceExpansion` variant, as tested by
`matches!(s.segment_type, SegmentType::ChoiceExpansion { .. })`. -/
def SegmentType.isChoiceExpansion : SegmentType → Bool
  | .ChoiceExpansion _ _ => true
  | _ => false

/-- Whether a segment type is the `Function` variant, as tested by
`matches!(s.segment_type, SegmentType::Function { .. })`. -/
def SegmentType.isFunction : SegmentType → Bool
  | .Function _ _ => true
  | _ => false

/-- `NavigationSegment` from src/navigation.rs (`cost` is `f32`, embedded
as a rational). -/
structure NavigationSegment : Type where
  name : String
  segment_type : SegmentType
  source_type : String
  target_type : String
  cardinality : Cardinality
  can_fail : Bool
  cost : ℚ

/-- `OptimizationHint` from src/navigation.rs. -/
structure OptimizationHint : Type where
  optimization_type : String
  description : String
  impact : ℚ
  suggested_action : String

/-- `PathComplexity` from src/navigation.rs. -/
structure PathComplexity : Type where
  segment_count : Nat
  depth : Nat
  choice_expansions : Nat
  function_calls : Nat
  complexity_score : ℚ
  has_performance_concerns : Bool

/-- `Default for PathComplexity` (src/navigation.rs). -/
def PathComplexity.default : PathComplexity :=
  { segment_count := 0, depth := 0, choice_expansions := 0, function_calls := 0
    complexity_score := 0, has_performance_concerns := false }

/-- `NavigationPath` from src/navigation.rs. -/
structure NavigationPath : Type where
  segments : List NavigationSegment
  full_path : String
  is_type_safe : Bool
  validation_errors : List String
  optimization_hints : List OptimizationHint
  complexity : PathComplexity

/-- `NavigationPath::new` (src/navigation.rs). -/
def NavigationPath.new (full_path : String) : NavigationPath :=
  { segments := [], full_path := full_path, is_type_safe := false
    validation_errors := [], optimization_hints := []
    complexity := PathComplexity.default }

/-- `NavigationPath::update_complexity` (src/navigation.rs): recomputes the
complexity record from the segment list.  Note the stored score is the raw
score capped by `min · 1.0` while `has_performance_concerns` compares the
raw (uncapped) score to `0.7`, exactly as the Rust body does. -/
def NavigationPath.update_complexity (p : NavigationPath) : NavigationPath :=
  let segment_count := p.segments.length
  let choice_expansions :=
    (p.segments.filter (fun s => s.segment_type.isChoiceExpansion)).length
  let function_calls :=
    (p.segments.filter (fun s => s.segment_type.isFunction)).length
  let complexity_score : ℚ :=
    (segment_count : ℚ) * (1/10) + (choice_expansions : ℚ) * (3/10) +
      (function_calls : ℚ) * (2/10)
  { p with
    complexity :=
      { segment_count := segment_count
        depth := segment_count
        choice_expansions := choice_expansions
        function_calls := function_calls
        complexity_score := min complexity_score 1
        has_performance_concerns := decide ((7/10 : ℚ) < complexity_score) } }

/-- `NavigationPath::add_segment` (src/navigation.rs): pushes the segment
and recomputes the complexity record. -/
def NavigationPath.add_segment (p : NavigationPath) (segment : NavigationSegment) :
    NavigationPath :=
  NavigationPath.update_complexity { p with segments := p.segments ++ [segment] }

/-- `NavigationPath::total_cost` (src/navigation.rs). -/
def NavigationPath.total_cost (p : NavigationPath) : ℚ :=
  (p.segments.map (fun s => s.cost)).sum

/-- `NavigationSegment::property` (src/navigation.rs). -/
def NavigationSegment.property (name source_type target_type : String)
    (cardinality : Cardinality) : NavigationSegment :=
  { name := name, segment_type := .Property, source_type := source_type
    target_type := target_type, cardinality := cardinality
    can_fail := false, cost := 1/10 }

/-- `NavigationSegment::choice_expansion` (src/navigation.rs). -/
def NavigationSegment.choice_expansion
    (name base_property expanded_type source_type target_type : String)
    (cardinality : Cardinality) : NavigationSegment :=
  { name := name, segment_type := .ChoiceExpansion base_property expanded_type
    source_type := source_type, target_type := target_type
    cardinality := cardinality, can_fail := true, cost := 3/10 }

/-- `NavigationSegment::function` (src/navigation.rs), with the
per-function-name cost table. -/
def NavigationSegment.function (name function_name : String)
    (parameters : List String) (source_type target_type : String)
    (cardinality : Cardinality) : NavigationSegment :=
  let cost : ℚ :=
    match function_name with
    | "exists" | "empty" | "first" | "last" => 2/10
    | "where" | "select" | "all" | "any" => 5/10
    | _ => 4/10
  { name := name, segment_type := .Function function_name parameters
    source_type := source_type, target_type := target_type
    cardinality := cardinality, can_fail := true, cost := cost }

/-- `RequirementType` from src/choice_types.rs. -/
inductive RequirementType : Type where
  | FormatValidation
  | RangeValidation
  | PatternMatching
  | CustomValidation
deriving DecidableEq

/-- `ConversionRequirement` from src/choice_types.rs. -/
structure ConversionRequirement : Type where
  requirement_type : RequirementType
  description : String
  is_mandatory : Bool

/-- `CompatibilityRule` from src/choice_types.rs. -/
structure CompatibilityRule : Type where
  rule_id : String
  source_type : String
  compatible_types : List String
  compatibility_score : ℚ
  conversion_requirements : List ConversionRequirement

/-- `ChoiceTypeOption` from src/choice_types.rs (`usage_frequency` is
`f64`, embedded as a rational). -/
structure ChoiceTypeOption : Type where
  type_name : String
  expanded_property : String
  type_info : TypeReflectionInfo
  usage_frequency : ℚ
  compatibility_rules : List CompatibilityRule

/-- `ChoiceTypeOption::new` (src/choice_types.rs). -/
def ChoiceTypeOption.new (type_name expanded_property : String)
    (type_info : TypeReflectionInfo) : ChoiceTypeOption :=
  { type_name := type_name, expanded_property := expanded_property
    type_info := type_info, usage_frequency := 0, compatibility_rules := [] }

/-- `ChoiceTypeOption::with_usage_frequency` (src/choice_types.rs):
`frequency.clamp(0.0, 1.0)`. -/
def ChoiceTypeOption.with_usage_frequency (opt : ChoiceTypeOption)
    (frequency : ℚ) : ChoiceTypeOption :=
  { opt with usage_frequency := min (max frequency 0) 1 }

/-- `ChoiceTypeOption::add_compatibility_rule` (src/choice_types.rs). -/
def ChoiceTypeOption.add_compatibility_rule (opt : ChoiceTypeOption)
    (rule : CompatibilityRule) : ChoiceTypeOption :=
  { opt with compatibility_rules := opt.compatibility_rules ++ [rule] }

/-- `PathConstraint` from src/choice_types.rs. -/
structure PathConstraint : Type where
  constraint_id : String
  expression : String
  severity : ConstraintSeverity
  description : String

/-- `ExpandedPath` from src/choice_types.rs. -/
structure ExpandedPath : Type where
  path : String
  target_type : String
  type_info : TypeReflectionInfo
  path_constraints : List PathConstraint
  cardinality : Cardinality

/-- `ExpansionContext` from src/choice_types.rs. -/
structure ExpansionContext : Type where
  resource_type : Option String
  profile : Option String
  extension_context : Option String
  metadata : List (String × String)

/-- `Default for ExpansionContext` (derived in src/choice_types.rs). -/
def ExpansionContext.default : ExpansionContext :=
  { resource_type := none, profile := none, extension_context := none, metadata := [] }

/-- `ChoiceExpansion` from src/choice_types.rs.  The two
`HashMap<String, String>` fields are embedded as association lists where
insertion prepends and lookup returns the most recent binding. -/
structure ChoiceExpansion : Type where
  choice_property : String
  forward_mappings : List (String × String)
  reverse_mappings : List (String × String)
  expanded_paths : List ExpandedPath
  expansion_context : ExpansionContext

/-- `ChoiceExpansion::new` (src/choice_types.rs). -/
def ChoiceExpansion.new (choice_property : String) : ChoiceExpansion :=
  { choice_property := choice_property, forward_mappings := []
    reverse_mappings := [], expanded_paths := []
    expansion_context := ExpansionContext.default }

/-- `ChoiceExpansion::add_mapping` (src/choice_types.rs): inserts
`type_name → property_name` into the forward map and
`property_name → type_name` into the reverse map. -/
def ChoiceExpansion.add_mapping (e : ChoiceExpansion)
    (type_name property_name : String) : ChoiceExpansion :=
  { e with
    forward_mappings := (type_name, property_name) :: e.forward_mappings
    reverse_mappings := (property_name, type_name) :: e.reverse_mappings }

/-- `ChoiceExpansion::expand_to_type` (src/choice_types.rs). -/
def ChoiceExpansion.expand_to_type (e : ChoiceExpansion) (type_name : String) :
    Option String :=
  e.forward_mappings.lookup type_name

/-- `ChoiceExpansion::get_base_type` (src/choice_types.rs). -/
def ChoiceExpansion.get_base_type (e : ChoiceExpansion) (expanded_property : String) :
    Option String :=
  e.reverse_mappings.lookup expanded_property

/-- Repeated `add_mapping` calls (statement vocabulary for the round-trip
claim): folds a pair list through `ChoiceExpansion.add_mapping`. -/
def ChoiceExpansion.add_mappings (e : ChoiceExpansion)
    (ps : List (String × String)) : ChoiceExpansion :=
  ps.foldl (fun acc p => acc.add_mapping p.1 p.2) e

/-- `DependencyKind` from src/fhirpath_types.rs. -/
inductive DependencyKind : Type where
  | Inheritance
  | Composition
  | Reference
  | Extension
  | ChoiceType
  | FunctionParameter
  | Constraint
deriving DecidableEq

/-- `TypeDependency` from src/fhirpath_types.rs (`dependency_strength` is
`f64`, embedded as a rational). -/
structure TypeDependency : Type where
  source_type : String
  target_type : String
  dependency_kind : DependencyKind
  dependency_strength : ℚ
  context : String
  is_required : Bool

/-- `IssueSeverity` from src/fhirpath_types.rs. -/
inductive IssueSeverity : Type where
  | Error
  | Warning
  | Info
deriving DecidableEq

/-- `CircularDependency` from src/fhirpath_types.rs. -/
structure CircularDependency : Type where
  cycle_types : List String
  cycle_length : Nat
  severity : IssueSeverity
  resolution_strategy : String

/-- `GraphComplexityMetrics` from src/fhirpath_types.rs (the `f64` fields
are embedded as rationals). -/
structure GraphComplexityMetrics : Type where
  node_count : Nat
  edge_count : Nat
  max_depth : Nat
  average_fan_out : ℚ
  density : ℚ

/-- `DependencyGraph` from src/fhirpath_types.rs. -/
structure DependencyGraph : Type where
  dependencies : List TypeDependency
  involved_types : List String
  circular_dependencies : List CircularDependency
  resolution_order : List String
  complexity_metrics : GraphComplexityMetrics

/-- `DependencyGraph::new` (src/fhirpath_types.rs). -/
def DependencyGraph.new : DependencyGraph :=
  { dependencies := [], involved_types := [], circular_dependencies := []
    resolution_order := []
    complexity_metrics :=
      { node_count := 0, edge_count := 0, max_depth := 0
        average_fan_out := 0, density := 0 } }

/-- `DependencyGraph::update_metrics` (src/fhirpath_types.rs). -/
def DependencyGraph.update_metrics (g : DependencyGraph) : DependencyGraph :=
  let node_count := g.involved_types.length
  let edge_count := g.dependencies.length
  let m := { g.complexity_metrics with node_count := node_count, edge_count := edge_count }
  let m :=
    if node_count > 0 then
      let m := { m with average_fan_out := (edge_count : ℚ) / (node_count : ℚ) }
      let max_possible_edges := node_count * (node_count - 1)
      if max_possible_edges > 0 then
        { m with density := (edge_count : ℚ) / (max_possible_edges : ℚ) }
      else m
    else m
  { g with complexity_metrics := m }

/-- `DependencyGraph::add_dependency` (src/fhirpath_types.rs): registers
both endpoint types, appends the edge, and recomputes the metrics. -/
def DependencyGraph.add_dependency (g : DependencyGraph)
    (dependency : TypeDependency) : DependencyGraph :=
  let involved :=
    if g.involved_types.contains dependency.source_type then g.involved_types
    else g.involved_types ++ [dependency.source_type]
  let involved :=
    if involved.contains dependency.target_type then involved
    else involved ++ [dependency.target_type]
  DependencyGraph.update_metrics
    { g with involved_types := involved, dependencies := g.dependencies ++ [dependency] }

/-- `DependencyGraph::has_path` (src/fhirpath_types.rs): a single-edge
check, not a transitive search. -/
def DependencyGraph.has_path (g : DependencyGraph) (fromType toType : String) : Bool :=
  g.dependencies.any (fun dep => dep.source_type == fromType && dep.target_type == toType)

/-- `DependencyGraph::detect_cycles` (src/fhirpath_types.rs): clears the
cycle list, then for each edge whose reverse edge exists pushes a 2-cycle
record. -/
def DependencyGraph.detect_cycles (g : DependencyGraph) : DependencyGraph :=
  { g with
    circular_dependencies :=
      g.dependencies.filterMap (fun dependency =>
        if g.has_path dependency.target_type dependency.source_type then
          some
            { cycle_types := [dependency.source_type, dependency.target_type]
              cycle_length := 2
              severity := IssueSeverity.Warning
              resolution_strategy := "Consider breaking the cycle with abstraction" }
        else none) }

/-! Concrete values and statement vocabulary used by the claim theorems. -/

/-- The canonical `System.Integer` descriptor, as built by
`TypeReflectionInfo::simple_type("System", "Integer")` in the repository's
code and tests. -/
def sysInteger : TypeReflectionInfo := TypeReflectionInfo.simple_type "System" "Integer"

/-- The raw (uncapped) complexity score that
`NavigationPath::update_complexity` computes from a segment list before
applying `min · 1.0`. -/
def rawScore (segs : List NavigationSegment) : ℚ :=
  (segs.length : ℚ) * (1/10)
    + ((segs.filter (fun s => s.segment_type.isChoiceExpansion)).length : ℚ) * (3/10)
    + ((segs.filter (fun s => s.segment_type.isFunction)).length : ℚ) * (2/10)

/-- Resolution in the priority order that claim C3 asserts (the claim's
wording, not the code): the first entry of the candidate list
`get_compatible_types` — self, declared base, safe promotions, String, in
that order — that occurs in `available_types`.  Declared only to compare
against the source-derived `resolve_choice_type`. -/
def claimedPriorityResolve (t : TypeReflectionInfo)
    (context : PolymorphicContext) : Option String :=
  t.get_compatible_types.find? (fun c => context.available_types.contains c)

/-- A polymorphic context whose `available_types` lists the String
candidate before the Decimal candidate (input for the C3 analysis). -/
def c3Context : PolymorphicContext :=
  { current_path := "Observation.value", base_type := "Observation"
    available_types := ["System.String", "System.Decimal"]
    constraints := [], inference_hints := []
    resolution_strategy := ResolutionStrategy.FirstMatch, metadata := [] }

/-- An `ExplicitOnly` context whose `available_types` contains the
descriptor's own type (input for the C4 analysis). -/
def c4Context : PolymorphicContext :=
  { current_path := "Observation.value", base_type := "Observation"
    available_types := ["System.Integer"]
    constraints := [], inference_hints := []
    resolution_strategy := ResolutionStrategy.ExplicitOnly, metadata := [] }

/-- An `ExplicitOnly` context with no candidate compatible with
`System.Integer` (input for the C4 witness). -/
def c4EmptyContext : PolymorphicContext :=
  { current_path := "Observation.value", base_type := "Observation"
    available_types := ["FHIR.Patient"]
    constraints := [], inference_hints := []
    resolution_strategy := ResolutionStrategy.ExplicitOnly, metadata := [] }

/-- The dependency edge `A → B` (input for the C2 analysis). -/
def c2DepAB : TypeDependency :=
  { source_type := "A", target_type := "B", dependency_kind := .Reference
    dependency_strength := 1, context := "test", is_required := true }

/-- The dependency edge `B → A` (input for the C2 analysis). -/
def c2DepBA : TypeDependency :=
  { source_type := "B", target_type := "A", dependency_kind := .Reference
    dependency_strength := 1, context := "test", is_required := true }

/-- A `NavigationPath` whose stored `complexity_score` (2) is not the score
recomputed from its (empty) segment list; Rust permits this value because
the struct fields are public (input for the C6 analysis). -/
def c6InconsistentPath : NavigationPath :=
  { segments := [], full_path := "p", is_type_safe := false
    validation_errors := [], optimization_hints := []
    complexity :=
      { segment_count := 0, depth := 0, choice_expansions := 0, function_calls := 0
        complexity_score := 2, has_performance_concerns := false } }

/-- A `NavigationSegment` with a negative cost; Rust permits this value
because the struct fields are public (input for the C6 analysis). -/
def c6NegativeSegment : NavigationSegment :=
  { name := "x", segment_type := .Property, source_type := "S", target_type := "T"
    cardinality := { min := 0, max := some 1 }, can_fail := false, cost := -1 }

/-- An empty navigation path built through the public constructor (input
for the C6 witness). -/
def c6FreshPath : NavigationPath := NavigationPath.new "Patient.name"

/-- A property segment built through the public constructor (input for the
C6 witness). -/
def c6PropertySegment : NavigationSegment :=
  NavigationSegment.property "name" "Patient" "HumanName" { min := 0, max := some 1 }

/-- A class type in the non-FHIR namespace `Custom` (input for the C9
analysis). -/
def c9CustomA : TypeReflectionInfo := .ClassInfo "Custom" "Alpha" none []

/-- A second class type in the same non-FHIR namespace `Custom` (input for
the C9 analysis). -/
def c9CustomB : TypeReflectionInfo := .ClassInfo "Custom" "Beta" none []


/-! Helper lemmas about the navigation cost model. -/

theorem update_complexity_score (q : NavigationPath) :
    (q.update_complexity).complexity.complexity_score = min (rawScore q.segments) 1 := rfl

theorem update_complexity_concerns (q : NavigationPath) :
    (q.update_complexity).complexity.has_performance_concerns
      = decide ((7/10 : ℚ) < rawScore q.segments) := rfl

theorem rawScore_nonneg (segs : List NavigationSegment) : 0 ≤ rawScore segs := by
  unfold rawScore
  positivity

theorem rawScore_le_append (l : List NavigationSegment) (s : NavigationSegment) :
    rawScore l ≤ rawScore (l ++ [s]) := by
  unfold rawScore
  simp only [List.filter_append, List.length_append]
  push_cast
  have h1 : (0 : ℚ) ≤ (([s].filter fun s => s.segment_type.isChoiceExpansion).length : ℚ) := by
    positivity
  have h2 : (0 : ℚ) ≤ (([s].filter fun s => s.segment_type.isFunction).length : ℚ) := by
    positivity
  nlinarith [h1, h2]

theorem total_cost_add_segment (p : NavigationPath) (s : NavigationSegment) :
    (p.add_segment s).total_cost = p.total_cost + s.cost := by
  simp [NavigationPath.add_segment, NavigationPath.total_cost, NavigationPath.update_complexity]

theorem function_cost_table (n fn : String) (ps : List String) (st tt : String)
    (c : Cardinality) :
    (NavigationSegment.function n fn ps st tt c).cost =
      (if fn = "exists" ∨ fn = "empty" ∨ fn = "first" ∨ fn = "last" then (2/10 : ℚ)
       else if fn = "where" ∨ fn = "select" ∨ fn = "all" ∨ fn = "any" then 5/10
       else 4/10) := by
  show (match fn with
    | "exists" | "empty" | "first" | "last" => (2/10 : ℚ)
    | "where" | "select" | "all" | "any" => 5/10
    | _ => 4/10) = _
  split
  case h_9 h1 h2 h3 h4 h5 h6 h7 h8 =>
    rw [if_neg (by tauto), if_neg (by tauto)]
  all_goals norm_num
  all_goals rw [if_neg (by decide)]

/-! The claims. -/

/-- C5: for the `System.Integer` descriptor, `can_convert_to` classifies
`System.Decimal` as an `Implicit` conversion without possible data loss,
`System.String` as a `Function` conversion without possible data loss, and
`System.Date` as `Forbidden`. -/
theorem c5_integer_conversions :
    (sysInteger.can_convert_to "System.Decimal").conversion_type = ConversionType.Implicit ∧
    (sysInteger.can_convert_to "System.Decimal").data_loss_possible = false ∧
    (sysInteger.can_convert_to "System.String").conversion_type = ConversionType.Function ∧
    (sysInteger.can_convert_to "System.String").data_loss_possible = false ∧
    (sysInteger.can_convert_to "System.Date").conversion_type = ConversionType.Forbidden :=
  ⟨rfl, rfl, rfl, rfl, rfl⟩

/-- C10: every `ChoiceTypeOption` reachable through the public builder API
keeps `usage_frequency` inside `[0, 1]`: `new` initialises it to `0`,
`with_usage_frequency f` stores `f` clamped to `[0, 1]` for any input `f`,
and `add_compatibility_rule` leaves it unchanged. -/
theorem c10_usage_frequency_clamped :
    (∀ tn ep ti, (ChoiceTypeOption.new tn ep ti).usage_frequency = 0) ∧
    (∀ (opt : ChoiceTypeOption) (f : ℚ),
      (opt.with_usage_frequency f).usage_frequency = min (max f 0) 1 ∧
      0 ≤ (opt.with_usage_frequency f).usage_frequency ∧
      (opt.with_usage_frequency f).usage_frequency ≤ 1) ∧
    (∀ (opt : ChoiceTypeOption) (r : CompatibilityRule),
      (opt.add_compatibility_rule r).usage_frequency = opt.usage_frequency) := by
  refine ⟨fun tn ep ti => rfl, fun opt f => ⟨rfl, ?_, ?_⟩, fun opt r => rfl⟩
  · exact le_min (le_max_right f 0) zero_le_one
  · exact min_le_right _ 1

/-- C8: the segment constructors assign the fixed costs and failure flags:
`property` makes cost `0.1` and `can_fail = false`; `choice_expansion`
makes cost `0.3` and `can_fail = true`; `function` makes `can_fail = true`
with cost `0.2` for exists/empty/first/last, `0.5` for
where/select/all/any and `0.4` otherwise; and `total_cost` is the sum of
the segment costs. -/
theorem c8_segment_cost_model :
    (∀ n st tt c, (NavigationSegment.property n st tt c).cost = 1/10 ∧
        (NavigationSegment.property n st tt c).can_fail = false) ∧
    (∀ n bp et st tt c,
        (NavigationSegment.choice_expansion n bp et st tt c).cost = 3/10 ∧
        (NavigationSegment.choice_expansion n bp et st tt c).can_fail = true) ∧
    (∀ n fn ps st tt c, (NavigationSegment.function n fn ps st tt c).can_fail = true ∧
        (NavigationSegment.function n fn ps st tt c).cost =
          (if fn = "exists" ∨ fn = "empty" ∨ fn = "first" ∨ fn = "last" then (2/10 : ℚ)
           else if fn = "where" ∨ fn = "select" ∨ fn = "all" ∨ fn = "any" then 5/10
           else 4/10)) ∧
    (∀ p : NavigationPath,
        p.total_cost = p.segments.foldr (fun s acc => s.cost + acc) 0) := by
  refine ⟨fun n st tt c => ⟨rfl, rfl⟩, fun n bp et st tt c => ⟨rfl, rfl⟩,
    fun n fn ps st tt c => ⟨rfl, function_cost_table n fn ps st tt c⟩, fun p => ?_⟩
  have h : ∀ l : List NavigationSegment,
      (l.map (fun s => s.cost)).sum = l.foldr (fun s acc => s.cost + acc) 0 := by
    intro l
    induction l with
    | nil => simp
    | cons s rest ih => simp [ih]
  exact h p.segments

/-- C7: after every `add_segment` call the stored complexity counters match
the segment list, the stored `complexity_score` equals
`0.1·segment_count + 0.3·choice_expansions + 0.2·function_calls` clamped
to `[0, 1]`, and `has_performance_concerns` holds exactly when the stored
score exceeds `0.7`. -/
theorem c7_complexity_formula (p : NavigationPath) (s : NavigationSegment) :
    (p.add_segment s).complexity.segment_count = (p.add_segment s).segments.length ∧
    (p.add_segment s).complexity.choice_expansions =
      ((p.add_segment s).segments.filter
        (fun seg => seg.segment_type.isChoiceExpansion)).length ∧
    (p.add_segment s).complexity.function_calls =
      ((p.add_segment s).segments.filter (fun seg => seg.segment_type.isFunction)).length ∧
    (p.add_segment s).complexity.complexity_score =
      max 0 (min (((p.add_segment s).complexity.segment_count : ℚ) * (1/10)
        + ((p.add_segment s).complexity.choice_expansions : ℚ) * (3/10)
        + ((p.add_segment s).complexity.function_calls : ℚ) * (2/10)) 1) ∧
    ((p.add_segment s).complexity.has_performance_concerns = true ↔
      (7/10 : ℚ) < (p.add_segment s).complexity.complexity_score) := by
  refine ⟨rfl, rfl, rfl, ?_, ?_⟩
  · show min (rawScore (p.segments ++ [s])) 1
        = max 0 (min (rawScore (p.segments ++ [s])) 1)
    exact (max_eq_right (le_min (rawScore_nonneg _) zero_le_one)).symm
  · show decide ((7/10 : ℚ) < rawScore (p.segments ++ [s])) = true ↔
        (7/10 : ℚ) < min (rawScore (p.segments ++ [s])) 1
    rw [decide_eq_true_iff]
    constructor
    · intro h
      exact lt_min h (by norm_num)
    · intro h
      exact lt_of_lt_of_le h (min_le_left _ _)

/-- C6 counterexample: for the publicly constructible path whose stored
score (2) is not the recomputed one and a segment with negative cost,
`add_segment` strictly decreases both the stored `complexity_score` and
`total_cost`, so the claim fails for arbitrary paths and segments. -/
theorem c6_counterexample :
    (c6InconsistentPath.add_segment c6NegativeSegment).complexity.complexity_score
        < c6InconsistentPath.complexity.complexity_score ∧
    (c6InconsistentPath.add_segment c6NegativeSegment).total_cost
        < c6InconsistentPath.total_cost := by
  constructor
  · norm_num [c6InconsistentPath, c6NegativeSegment, NavigationPath.add_segment,
      NavigationPath.update_complexity, SegmentType.isChoiceExpansion,
      SegmentType.isFunction]
  · norm_num [c6InconsistentPath, c6NegativeSegment, NavigationPath.add_segment,
      NavigationPath.update_complexity, NavigationPath.total_cost]

/-- C6 (amended): appending a segment never decreases the stored
`complexity_score` provided the path's stored score is the one recomputed
from its segments (true of every path maintained through
`new`/`add_segment`), and never decreases `total_cost` provided the
segment's cost is nonnegative (true of every constructor-built
segment). -/
theorem c6_add_segment_monotone (p : NavigationPath) (s : NavigationSegment)
    (hp : p.complexity.complexity_score = min (rawScore p.segments) 1)
    (hs : 0 ≤ s.cost) :
    p.complexity.complexity_score ≤ (p.add_segment s).complexity.complexity_score ∧
    p.total_cost ≤ (p.add_segment s).total_cost := by
  constructor
  · rw [hp]
    show _ ≤ min (rawScore (p.segments ++ [s])) 1
    exact min_le_min (rawScore_le_append p.segments s) le_rfl
  · rw [total_cost_add_segment]
    linarith

/-- C6 witness: the monotonicity theorem applied to a freshly constructed
path and a constructor-built property segment. -/
theorem c6_add_segment_monotone_witness :
    c6FreshPath.complexity.complexity_score
        ≤ (c6FreshPath.add_segment c6PropertySegment).complexity.complexity_score ∧
    c6FreshPath.total_cost ≤ (c6FreshPath.add_segment c6PropertySegment).total_cost :=
  c6_add_segment_monotone c6FreshPath c6PropertySegment
    (by norm_num [c6FreshPath, NavigationPath.new, PathComplexity.default, rawScore, min_def])
    (by norm_num [c6PropertySegment, NavigationSegment.property])



/-! Helper lemmas about the choice-expansion maps. -/

theorem add_mappings_append (e : ChoiceExpansion) (l1 l2 : List (String × String)) :
    e.add_mappings (l1 ++ l2) = (e.add_mappings l1).add_mappings l2 := by
  simp [ChoiceExpansion.add_mappings, List.foldl_append]

theorem expand_to_type_unchanged (e : ChoiceExpansion) (l : List (String × String))
    (t : String) (h : ∀ q ∈ l, q.1 ≠ t) :
    (e.add_mappings l).expand_to_type t = e.expand_to_type t := by
  induction l generalizing e with
  | nil => rfl
  | cons q rest ih =>
      have hstep : (e.add_mapping q.1 q.2).expand_to_type t = e.expand_to_type t := by
        have hq : (t == q.1) = false :=
          beq_eq_false_iff_ne.mpr (Ne.symm (h q (List.mem_cons_self q rest)))
        simp [ChoiceExpansion.add_mapping, ChoiceExpansion.expand_to_type, List.lookup, hq]
      have hfold : e.add_mappings (q :: rest) = (e.add_mapping q.1 q.2).add_mappings rest := rfl
      rw [hfold, ih _ (fun r hr => h r (List.mem_cons_of_mem q hr))]
      exact hstep

theorem get_base_type_unchanged (e : ChoiceExpansion) (l : List (String × String))
    (p : String) (h : ∀ q ∈ l, q.2 ≠ p) :
    (e.add_mappings l).get_base_type p = e.get_base_type p := by
  induction l generalizing e with
  | nil => rfl
  | cons q rest ih =>
      have hstep : (e.add_mapping q.1 q.2).get_base_type p = e.get_base_type p := by
        have hq : (p == q.2) = false :=
          beq_eq_false_iff_ne.mpr (Ne.symm (h q (List.mem_cons_self q rest)))
        simp [ChoiceExpansion.add_mapping, ChoiceExpansion.get_base_type, List.lookup, hq]
      have hfold : e.add_mappings (q :: rest) = (e.add_mapping q.1 q.2).add_mappings rest := rfl
      rw [hfold, ih _ (fun r hr => h r (List.mem_cons_of_mem q hr))]
      exact hstep

theorem expand_to_type_add_mapping_self (e : ChoiceExpansion) (t p : String) :
    (e.add_mapping t p).expand_to_type t = some p := by
  simp [ChoiceExpansion.add_mapping, ChoiceExpansion.expand_to_type, List.lookup]

theorem get_base_type_add_mapping_self (e : ChoiceExpansion) (t p : String) :
    (e.add_mapping t p).get_base_type p = some t := by
  simp [ChoiceExpansion.add_mapping, ChoiceExpansion.get_base_type, List.lookup]

/-- C1 counterexample: adding two different type names with the same
property name breaks the round trip — after `add_mapping "string"
"valueData"` and `add_mapping "boolean" "valueData"` the reverse lookup of
`"valueData"` yields `"boolean"`, not `"string"`, although
`("string", "valueData")` was added and still maps forward. -/
theorem c1_counterexample :
    (((ChoiceExpansion.new "value[x]").add_mapping "string" "valueData").add_mapping
        "boolean" "valueData").expand_to_type "string" = some "valueData" ∧
    (((ChoiceExpansion.new "value[x]").add_mapping "string" "valueData").add_mapping
        "boolean" "valueData").get_base_type "valueData" = some "boolean" ∧
    (some "boolean" : Option String) ≠ some "string" :=
  ⟨rfl, rfl, by decide⟩

/-- C1 (amended): for every `(type, property)` pair added via
`add_mapping`, the round trip `expand_to_type type = property` and
`get_base_type property = type` holds exactly, provided no later
`add_mapping` call reuses the same type name or the same property name
(a later reuse overwrites one side of the pair of maps). -/
theorem c1_round_trip (e : ChoiceExpansion) (l1 l2 : List (String × String)) (t p : String)
    (h : ∀ q ∈ l2, q.1 ≠ t ∧ q.2 ≠ p) :
    (e.add_mappings (l1 ++ (t, p) :: l2)).expand_to_type t = some p ∧
    (e.add_mappings (l1 ++ (t, p) :: l2)).get_base_type p = some t := by
  rw [add_mappings_append]
  have hsplit : (e.add_mappings l1).add_mappings ((t, p) :: l2)
      = ((e.add_mappings l1).add_mapping t p).add_mappings l2 := rfl
  rw [hsplit]
  constructor
  · rw [expand_to_type_unchanged _ _ _ (fun q hq => (h q hq).1)]
    exact expand_to_type_add_mapping_self _ t p
  · rw [get_base_type_unchanged _ _ _ (fun q hq => (h q hq).2)]
    exact get_base_type_add_mapping_self _ t p

/-- C1 witness: the round-trip theorem applied to the two standard
`value[x]` pairs, which use distinct type and property names. -/
theorem c1_round_trip_witness :
    ((ChoiceExpansion.new "value[x]").add_mappings
        ([] ++ ("string", "valueString") :: [("boolean", "valueBoolean")])).expand_to_type
      "string" = some "valueString" ∧
    ((ChoiceExpansion.new "value[x]").add_mappings
        ([] ++ ("string", "valueString") :: [("boolean", "valueBoolean")])).get_base_type
      "valueString" = some "string" :=
  c1_round_trip (ChoiceExpansion.new "value[x]") [] [("boolean", "valueBoolean")]
    "string" "valueString" (by decide)

/-! Helper lemma computing `detect_cycles` on the two-edge graph. -/

theorem detect_cycles_two_edges (d1 d2 : TypeDependency)
    (h3 : d2.source_type = d1.target_type) (h4 : d2.target_type = d1.source_type) :
    (((DependencyGraph.new.add_dependency d1).add_dependency
        d2).detect_cycles).circular_dependencies
      = [{ cycle_types := [d1.source_type, d1.target_type], cycle_length := 2
           severity := IssueSeverity.Warning
           resolution_strategy := "Consider breaking the cycle with abstraction" },
         { cycle_types := [d2.source_type, d2.target_type], cycle_length := 2
           severity := IssueSeverity.Warning
           resolution_strategy := "Consider breaking the cycle with abstraction" }] := by
  simp [DependencyGraph.detect_cycles, DependencyGraph.has_path,
    DependencyGraph.add_dependency, DependencyGraph.update_metrics, DependencyGraph.new,
    h3, h4]

/-- C2 counterexample: on the concrete graph with edges A→B and B→A,
`detect_cycles` records two circular dependencies (one per edge
direction), not exactly one. -/
theorem c2_counterexample :
    (((DependencyGraph.new.add_dependency c2DepAB).add_dependency
        c2DepBA).detect_cycles).circular_dependencies.length = 2 := rfl

/-- C2 (amended): for a graph built by `add_dependency` from exactly the
two edges A→B and B→A with A ≠ B, `detect_cycles` leaves exactly two
cycles in `circular_dependencies` — one per edge direction — and each
cycle's type set is {A, B}. -/
theorem c2_two_cycles (d1 d2 : TypeDependency) (a b : String) (hab : a ≠ b)
    (h1 : d1.source_type = a) (h2 : d1.target_type = b)
    (h3 : d2.source_type = b) (h4 : d2.target_type = a) :
    (((DependencyGraph.new.add_dependency d1).add_dependency
        d2).detect_cycles).circular_dependencies.length = 2 ∧
    ∀ c ∈ (((DependencyGraph.new.add_dependency d1).add_dependency
        d2).detect_cycles).circular_dependencies,
      ∀ x : String, x ∈ c.cycle_types ↔ (x = a ∨ x = b) := by
  have hcd := detect_cycles_two_edges d1 d2 (by rw [h3, h2]) (by rw [h4, h1])
  rw [hcd]
  constructor
  · rfl
  · intro c hc x
    simp only [List.mem_cons, List.not_mem_nil, or_false] at hc
    rcases hc with hc | hc
    · subst hc
      simp [h1, h2]
    · subst hc
      simp [h3, h4]
      tauto

/-- C2 witness: the two-cycle theorem applied to the concrete edges A→B
and B→A. -/
theorem c2_two_cycles_witness :
    (((DependencyGraph.new.add_dependency c2DepAB).add_dependency
        c2DepBA).detect_cycles).circular_dependencies.length = 2 ∧
    ∀ c ∈ (((DependencyGraph.new.add_dependency c2DepAB).add_dependency
        c2DepBA).detect_cycles).circular_dependencies,
      ∀ x : String, x ∈ c.cycle_types ↔ (x = "A" ∨ x = "B") :=
  c2_two_cycles c2DepAB c2DepBA "A" "B" (by decide) rfl rfl rfl rfl


/-- C3 counterexample: for the `System.Integer` descriptor and a context
listing `System.String` before `System.Decimal`, `resolve_choice_type`
returns `System.String` — the first entry of `available_types` that is
compatible — while the claimed priority order (self, base, safe
promotions, then String) would return `System.Decimal`. -/
theorem c3_counterexample :
    sysInteger.resolve_choice_type c3Context = some "System.String" ∧
    claimedPriorityResolve sysInteger c3Context = some "System.Decimal" ∧
    (some "System.String" : Option String) ≠ some "System.Decimal" :=
  ⟨rfl, rfl, by decide⟩

/-- C3 (amended): whenever the intersection of the candidate set with
`available_types` is non-empty, `resolve_choice_type` resolves in the
candidate-filtering phase; it returns the type's own qualified name when
that is available, and otherwise the first entry of `available_types` —
in the order the context lists them, not in candidate priority order —
that belongs to the candidate set. -/
theorem c3_first_available_compatible (t : TypeReflectionInfo)
    (context : PolymorphicContext)
    (h : ∃ a, a ∈ context.available_types ∧ a ∈ t.get_compatible_types) :
    t.resolve_choice_type context =
      if context.available_types.contains t.qualified_name then some t.qualified_name
      else context.available_types.find?
        (fun available => t.get_compatible_types.contains available) := by
  unfold TypeReflectionInfo.resolve_choice_type
  by_cases hmem : t.qualified_name ∈ context.available_types
  · simp [hmem]
  · rcases hf : context.available_types.find?
        (fun available => decide (available ∈ t.get_compatible_types)) with _ | b
    · exfalso
      obtain ⟨a, ha, hac⟩ := h
      have hnone := List.find?_eq_none.mp hf a ha
      simp only [decide_eq_true_eq] at hnone
      exact hnone hac
    · simp [hmem, hf]

/-- C3 witness: the theorem applied to the `System.Integer` descriptor
and the concrete context, whose intersection is non-empty. -/
theorem c3_first_available_compatible_witness :
    sysInteger.resolve_choice_type c3Context =
      if c3Context.available_types.contains sysInteger.qualified_name then
        some sysInteger.qualified_name
      else c3Context.available_types.find?
        (fun available => sysInteger.get_compatible_types.contains available) :=
  c3_first_available_compatible sysInteger c3Context
    ⟨"System.String", by decide, by decide⟩

/-- C4 counterexample: under the `ExplicitOnly` strategy
`resolve_choice_type` still resolves when the type itself is among
`available_types`, because the candidate-filtering phase runs before the
strategy dispatch — so the result is not absent for all inputs. -/
theorem c4_counterexample :
    c4Context.resolution_strategy = ResolutionStrategy.ExplicitOnly ∧
    sysInteger.resolve_choice_type c4Context = some "System.Integer" :=
  ⟨rfl, rfl⟩

/-- C4 (amended): under the `ExplicitOnly` strategy the strategy phase
never auto-resolves: `resolve_choice_type` returns an absent result
whenever neither the type's own qualified name nor any member of its
compatible-type set occurs in `available_types`, whatever inference hints
the context carries. -/
theorem c4_explicit_only_unresolved (t : TypeReflectionInfo)
    (context : PolymorphicContext)
    (hs : context.resolution_strategy = ResolutionStrategy.ExplicitOnly)
    (hq : t.qualified_name ∉ context.available_types)
    (h : ∀ a ∈ context.available_types, a ∉ t.get_compatible_types) :
    t.resolve_choice_type context = none := by
  unfold TypeReflectionInfo.resolve_choice_type
  have hf : context.available_types.find?
      (fun available => decide (available ∈ t.get_compatible_types)) = none := by
    apply List.find?_eq_none.mpr
    intro x hx
    simpa using h x hx
  simp [hq, hf, hs]

/-- C4 witness: the theorem applied to `System.Integer` and an
`ExplicitOnly` context offering only `FHIR.Patient`. -/
theorem c4_explicit_only_unresolved_witness :
    sysInteger.resolve_choice_type c4EmptyContext = none :=
  c4_explicit_only_unresolved sysInteger c4EmptyContext rfl (by decide) (by decide)

/-- C9 counterexample: two unrelated class types that share the (non-FHIR)
namespace `Custom` get no common supertype from the code, although the
claim promises the canonical root Element type for two class types of the
same namespace. -/
theorem c9_counterexample :
    c9CustomA.isClassInfo = true ∧ c9CustomB.isClassInfo = true ∧
    c9CustomA.nspace = c9CustomB.nspace ∧
    c9CustomA.common_supertype c9CustomB = none := by
  refine ⟨rfl, rfl, rfl, ?_⟩
  simp [c9CustomA, c9CustomB, TypeReflectionInfo.common_supertype, TypeReflectionInfo.beq,
    TypeReflectionInfo.is_subtype_of, TypeReflectionInfo.name, TypeReflectionInfo.base_type,
    TypeReflectionInfo.is_primitive, TypeReflectionInfo.is_fhir_type]

/-- C9 (amended): `common_supertype` returns the type itself when the two
descriptors are structurally equal; the supertype side when either is a
single-hop subtype of the other (by name or declared base type); else the
canonical `System.String` type when both are primitive (System simple)
types; else the `FHIR.Element` simple type when both are FHIR-namespace
types (simple or class — not same-namespace class types in general); and
an absent result in every remaining case. -/
theorem c9_common_supertype_cases (a b : TypeReflectionInfo) :
    (TypeReflectionInfo.beq a b = true → a.common_supertype b = some a) ∧
    (TypeReflectionInfo.beq a b = false → a.is_subtype_of b.name = true →
      a.common_supertype b = some b) ∧
    (TypeReflectionInfo.beq a b = false → a.is_subtype_of b.name = false →
      b.is_subtype_of a.name = true → a.common_supertype b = some a) ∧
    (TypeReflectionInfo.beq a b = false → a.is_subtype_of b.name = false →
      b.is_subtype_of a.name = false → a.is_primitive = true → b.is_primitive = true →
      a.common_supertype b = some (TypeReflectionInfo.simple_type "System" "String")) ∧
    (TypeReflectionInfo.beq a b = false → a.is_subtype_of b.name = false →
      b.is_subtype_of a.name = false → (a.is_primitive && b.is_primitive) = false →
      a.is_fhir_type = true → b.is_fhir_type = true →
      a.common_supertype b = some (TypeReflectionInfo.simple_type "FHIR" "Element")) ∧
    (TypeReflectionInfo.beq a b = false → a.is_subtype_of b.name = false →
      b.is_subtype_of a.name = false → (a.is_primitive && b.is_primitive) = false →
      (a.is_fhir_type && b.is_fhir_type) = false →
      a.common_supertype b = none) := by
  refine ⟨?_, ?_, ?_, ?_, ?_, ?_⟩
  · intro hb
    simp [TypeReflectionInfo.common_supertype, hb]
  · intro hb hs
    simp [TypeReflectionInfo.common_supertype, hb, hs]
  · intro hb hs1 hs2
    simp [TypeReflectionInfo.common_supertype, hb, hs1, hs2]
  · intro hb hs1 hs2 hp1 hp2
    simp [TypeReflectionInfo.common_supertype, hb, hs1, hs2, hp1, hp2]
  · intro hb hs1 hs2 hp hf1 hf2
    simp [TypeReflectionInfo.common_supertype, hb, hs1, hs2, hp, hf1, hf2]
  · intro hb hs1 hs2 hp hf
    simp [TypeReflectionInfo.common_supertype, hb, hs1, hs2, hp, hf]

/-- C9 witness: the FHIR branch of the case theorem applied to the two
unrelated FHIR simple types `FHIR.string` and `FHIR.boolean`. -/
theorem c9_common_supertype_cases_witness :
    (TypeReflectionInfo.simple_type "FHIR" "string").common_supertype
        (TypeReflectionInfo.simple_type "FHIR" "boolean")
      = some (TypeReflectionInfo.simple_type "FHIR" "Element") :=
  (c9_common_supertype_cases (TypeReflectionInfo.simple_type "FHIR" "string")
      (TypeReflectionInfo.simple_type "FHIR" "boolean")).2.2.2.2.1
    (by simp [TypeReflectionInfo.beq, TypeReflectionInfo.simple_type])
    (by simp [TypeReflectionInfo.is_subtype_of, TypeReflectionInfo.simple_type,
      TypeReflectionInfo.name, TypeReflectionInfo.base_type])
    (by simp [TypeReflectionInfo.is_subtype_of, TypeReflectionInfo.simple_type,
      TypeReflectionInfo.name, TypeReflectionInfo.base_type])
    (by simp [TypeReflectionInfo.is_primitive, TypeReflectionInfo.simple_type])
    (by simp [TypeReflectionInfo.is_fhir_type, TypeReflectionInfo.simple_type])
    (by simp [TypeReflectionInfo.is_fhir_type, TypeReflectionInfo.simple_type])


end FhirModel
